import Mathlib

/-!
Verification of the Proactive Call Scheduling & Retry Engine of the
HotelDemo repository (src/lib/proactive/scheduler.ts, concatenated in
src/src/app/page.tsx, and src/src/lib/vapi/security.ts).

Shallow embedding conventions:
* Times are natural numbers counting minutes since an epoch.  `startOfDay`,
  `addDays`, `addHours`, `setHours` mirror the date-fns helpers used by the
  source.  The wake-up window bound `subDays(now, 5 / (24 * 60))` is
  intended as "5 minutes ago" (the source's comment), but date-fns subDays
  does calendar-day arithmetic and truncates fractional amounts: the
  5/(24*60) ≈ 0.00347 day amount flows into setDate(getDate() − 0.00347),
  whose ToIntegerOrInfinity truncation subtracts one whole day.  The bound
  is therefore modelled as `now - minutesPerDay` (one day before now).
* The Prisma store is a `DB` record of entity lists; `findMany`/`findFirst`/
  `findUnique`/`update`/`create`/`upsert` become list filter / find? / map /
  append, each write keyed by the same field the source uses.
* The VAPI outbound-call gateway (`makeOutboundCall`) and the PMS HTTP
  endpoints are external collaborators; they are passed in as explicit
  oracle functions returning the same success/failure shape the source
  receives (never throwing, as in the source, which catches and returns a
  typed result).
* `attempts` and `maxAttempts` on a freshly created ProactiveCall take the
  store defaults 0 and 3.
-/

namespace HotelDemo

/-- Minutes in a day, the granularity of the time model. -/
def minutesPerDay : Nat := 1440

/-- date-fns `startOfDay`: truncate a time to midnight of its day. -/
def startOfDay (t : Nat) : Nat := t / minutesPerDay * minutesPerDay

/-- date-fns `addDays`. -/
def addDays (t n : Nat) : Nat := t + n * minutesPerDay

/-- date-fns `subDays` (whole days; truncated Nat subtraction). -/
def subDays (t n : Nat) : Nat := t - n * minutesPerDay

/-- date-fns `addHours`. -/
def addHours (t n : Nat) : Nat := t + n * 60

/-- JS `date.setHours(h, 0, 0, 0)`: move to hour `h` of the same day. -/
def setHours (t h : Nat) : Nat := startOfDay t + h * 60

/-- The `CallType` enum of the ProactiveCall model. -/
inductive CallType where
  | PRE_ARRIVAL
  | WAKE_UP
  | MID_STAY
  | PRE_CHECKOUT
  | POST_STAY
deriving DecidableEq, Repr

/-- The `CallStatus` enum of the ProactiveCall model. -/
inductive CallStatus where
  | SCHEDULED
  | IN_PROGRESS
  | COMPLETED
  | FAILED
deriving DecidableEq, Repr

/-- The reservation status enum. -/
inductive ResStatus where
  | CONFIRMED
  | CHECKED_IN
  | CHECKED_OUT
  | CANCELLED
deriving DecidableEq, Repr

/-- The wake-up request status enum. -/
inductive WakeStatus where
  | PENDING
  | COMPLETED
  | FAILED
deriving DecidableEq, Repr

/-- A row of the Guest table. -/
structure Guest where
  id : Nat
  externalId : Option String
  firstName : String
  lastName : String
  email : String
  phone : String
  preferredLanguage : String
  vipStatus : Bool
deriving DecidableEq, Repr

/-- A row of the Reservation table. -/
structure Reservation where
  id : Nat
  externalId : Option String
  guestId : Nat
  roomNumber : String
  roomType : String
  checkInDate : Nat
  checkOutDate : Nat
  status : ResStatus
  numberOfGuests : Nat
  specialRequests : Option String
deriving DecidableEq, Repr

/-- A row of the ProactiveCall (ScheduledCall) table. -/
structure ProactiveCall where
  id : Nat
  reservationId : Nat
  callType : CallType
  scheduledTime : Nat
  actualTime : Option Nat
  status : CallStatus
  attempts : Nat
  maxAttempts : Nat
  vapiCallId : Option String
  notes : Option String
deriving DecidableEq, Repr

/-- A row of the WakeUpRequest table. -/
structure WakeUpRequest where
  id : Nat
  roomNumber : String
  requestedTime : Nat
  status : WakeStatus
  attempts : Nat
  completedAt : Option Nat
deriving DecidableEq, Repr

/-- The Call Record Store: one list per table plus an id counter. -/
structure DB where
  guests : List Guest
  reservations : List Reservation
  calls : List ProactiveCall
  wakeUps : List WakeUpRequest
  nextId : Nat
deriving DecidableEq, Repr

/-- Result shape of `makeOutboundCall`: `{ success, callId?, error? }`. -/
inductive GatewayResult where
  | success (callId : String)
  | failure (error : String)
deriving DecidableEq, Repr

/-- Whether a gateway result is a success. -/
def GatewayResult.isSuccess : GatewayResult → Bool
  | .success _ => true
  | .failure _ => false

/-- The `proactiveCalls: { none: { callType } }` non-existence filter:
does the store already hold a call of this type for this reservation? -/
def hasCall (calls : List ProactiveCall) (resId : Nat) (ct : CallType) : Bool :=
  calls.any fun c => decide (c.reservationId = resId ∧ c.callType = ct)

/-- The `prisma.proactiveCall.create` calls of one scheduling pass: one row
per eligible reservation, `status: SCHEDULED`, store defaults
`attempts = 0`, `maxAttempts = 3`, consecutive fresh ids. -/
def createCalls (ct : CallType) (schedTime : Nat) : Nat → List Reservation → List ProactiveCall
  | _, [] => []
  | nid, r :: rs =>
      { id := nid, reservationId := r.id, callType := ct, scheduledTime := schedTime,
        actualTime := none, status := .SCHEDULED, attempts := 0, maxAttempts := 3,
        vapiCallId := none, notes := none } :: createCalls ct schedTime (nid + 1) rs

/-- Common shape of the four milestone schedulers: `findMany` the
reservations matching the milestone's window that have no existing call of
the milestone's type (both checked against the snapshot taken before the
loop), then create one SCHEDULED call per match and return the count. -/
def scheduleMilestone (ct : CallType) (window : Reservation → Bool) (schedTime : Nat)
    (db : DB) : Nat × DB :=
  let eligible := db.reservations.filter fun r => window r && !hasCall db.calls r.id ct
  (eligible.length,
   { db with calls := db.calls ++ createCalls ct schedTime db.nextId eligible,
             nextId := db.nextId + eligible.length })

/-- Pre-arrival eligibility: `status: CONFIRMED`, check-in date in
`[tomorrow, dayAfterTomorrow)`. -/
def preArrivalWindow (now : Nat) (r : Reservation) : Bool :=
  decide (r.status = .CONFIRMED) &&
  decide (addDays (startOfDay now) 1 ≤ r.checkInDate) &&
  decide (r.checkInDate < addDays (startOfDay now) 2)

/-- Pre-arrival target time: 16:00 today, or now + 1 hour if 16:00 has
passed (`isAfter(new Date(), scheduledTime)`). -/
def preArrivalTime (now : Nat) : Nat :=
  let t := setHours now 16
  if t < now then addHours now 1 else t

/-- `schedulePreArrivalCalls` from the source. -/
def schedulePreArrivalCalls (now : Nat) (db : DB) : Nat × DB :=
  scheduleMilestone .PRE_ARRIVAL (preArrivalWindow now) (preArrivalTime now) db

/-- Mid-stay eligibility: `status: CHECKED_IN`, check-in date in
`[twoDaysAgo, yesterday)`. -/
def midStayWindow (now : Nat) (r : Reservation) : Bool :=
  decide (r.status = .CHECKED_IN) &&
  decide (subDays (startOfDay now) 2 ≤ r.checkInDate) &&
  decide (r.checkInDate < subDays (startOfDay now) 1)

/-- Mid-stay target time: 14:00 today, or now + 1 hour if passed. -/
def midStayTime (now : Nat) : Nat :=
  let t := setHours now 14
  if t < now then addHours now 1 else t

/-- `scheduleMidStayCalls` from the source. -/
def scheduleMidStayCalls (now : Nat) (db : DB) : Nat × DB :=
  scheduleMilestone .MID_STAY (midStayWindow now) (midStayTime now) db

/-- Pre-checkout eligibility: `status: CHECKED_IN`, check-out date in
`[today, tomorrow)`. -/
def preCheckoutWindow (now : Nat) (r : Reservation) : Bool :=
  decide (r.status = .CHECKED_IN) &&
  decide (startOfDay now ≤ r.checkOutDate) &&
  decide (r.checkOutDate < addDays (startOfDay now) 1)

/-- Pre-checkout target time: 08:00 today, or now itself if 08:00 has
passed (`scheduledTime.setTime(new Date().getTime())`). -/
def preCheckoutTime (now : Nat) : Nat :=
  let t := setHours now 8
  if t < now then now else t

/-- `schedulePreCheckoutCalls` from the source. -/
def schedulePreCheckoutCalls (now : Nat) (db : DB) : Nat × DB :=
  scheduleMilestone .PRE_CHECKOUT (preCheckoutWindow now) (preCheckoutTime now) db

/-- Post-stay eligibility: `status: CHECKED_OUT`, check-out date in
`[threeDaysAgo, twoDaysAgo)`. -/
def postStayWindow (now : Nat) (r : Reservation) : Bool :=
  decide (r.status = .CHECKED_OUT) &&
  decide (subDays (startOfDay now) 3 ≤ r.checkOutDate) &&
  decide (r.checkOutDate < subDays (startOfDay now) 2)

/-- `schedulePostStayCalls` from the source: 14:00 today, no fallback. -/
def schedulePostStayCalls (now : Nat) (db : DB) : Nat × DB :=
  scheduleMilestone .POST_STAY (postStayWindow now) (setHours now 14) db

/-- Update the call row with the given id (`prisma.proactiveCall.update({ where: { id } })`). -/
def updCall (db : DB) (i : Nat) (f : ProactiveCall → ProactiveCall) : DB :=
  { db with calls := db.calls.map fun c => if c.id = i then f c else c }

/-- The due-job selection predicate of `processScheduledCalls`:
`status = SCHEDULED`, `scheduledTime ≤ now`, `attempts < 3`, and the
optional call-type filter. -/
def dueFilter (now : Nat) (ctFilter : Option CallType) (c : ProactiveCall) : Bool :=
  decide (c.status = .SCHEDULED) && decide (c.scheduledTime ≤ now) &&
  decide (c.attempts < 3) &&
  match ctFilter with
  | none => true
  | some ct => decide (c.callType = ct)

/-- The batch pulled by `processScheduledCalls`: filtered rows, ordered by
`scheduledTime` ascending, `take: 10`. -/
def dueCalls (now : Nat) (ctFilter : Option CallType) (db : DB) : List ProactiveCall :=
  (((db.calls.filter (dueFilter now ctFilter)).insertionSort
      fun a b => a.scheduledTime ≤ b.scheduledTime).take 10)

/-- The per-job loop of `processScheduledCalls`.  For each job of the
snapshot batch: mark it in-progress (increment attempts, set actualTime,
status IN_PROGRESS), invoke the gateway; on success store the returned
call handle and count the job; on failure set status FAILED when the
snapshot's `attempts + 1` has reached its `maxAttempts` and otherwise back
to SCHEDULED, with `notes` = the error and `scheduledTime` = now + 1 hour. -/
def processBatch (now : Nat) (gw : Nat → GatewayResult) :
    List ProactiveCall → DB → Nat × DB
  | [], db => (0, db)
  | call :: rest, db =>
      let db1 := updCall db call.id fun c =>
        { c with status := .IN_PROGRESS, attempts := c.attempts + 1, actualTime := some now }
      match gw call.id with
      | .success cid =>
          let r := processBatch now gw rest
            (updCall db1 call.id fun c => { c with vapiCallId := some cid })
          (r.1 + 1, r.2)
      | .failure e =>
          processBatch now gw rest
            (updCall db1 call.id fun c =>
              { c with
                  status := if call.maxAttempts ≤ call.attempts + 1 then .FAILED else .SCHEDULED,
                  notes := some e,
                  scheduledTime := addHours now 1 })

/-- `processScheduledCalls` from the source, with the outbound gateway as
an oracle keyed by the job id. -/
def processScheduledCalls (now : Nat) (ctFilter : Option CallType)
    (gw : Nat → GatewayResult) (db : DB) : Nat × DB :=
  processBatch now gw (dueCalls now ctFilter db) db

/-- Update the wake-up request row with the given id. -/
def updWake (db : DB) (i : Nat) (f : WakeUpRequest → WakeUpRequest) : DB :=
  { db with wakeUps := db.wakeUps.map fun w => if w.id = i then f w else w }

/-- The wake-up selection predicate of `processWakeUpCalls`:
`status = PENDING` and `requestedTime` between the lower bound
`subDays(now, 5 / (24 * 60))` and now.  date-fns subDays truncates the
fractional day amount through setDate (ToIntegerOrInfinity), so the lower
bound is one whole day before now, not 5 minutes as the source's comment
intends. -/
def wakeDueFilter (now : Nat) (w : WakeUpRequest) : Bool :=
  decide (w.status = .PENDING) && decide (now - minutesPerDay ≤ w.requestedTime) &&
  decide (w.requestedTime ≤ now)

/-- The batch pulled by `processWakeUpCalls` (`take: 10`). -/
def dueWakeUps (now : Nat) (db : DB) : List WakeUpRequest :=
  (db.wakeUps.filter (wakeDueFilter now)).take 10

/-- The per-request loop of `processWakeUpCalls`: look up a checked-in
reservation for the room (none → mark FAILED and continue); otherwise
increment attempts, invoke the gateway; on success mark COMPLETED with
completion time and count it; on failure mark FAILED only when the
snapshot's `attempts` was already ≥ 2, otherwise leave it PENDING. -/
def processWakeBatch (now : Nat) (gw : Nat → GatewayResult) :
    List WakeUpRequest → DB → Nat × DB
  | [], db => (0, db)
  | w :: rest, db =>
      match db.reservations.find? (fun r =>
          decide (r.roomNumber = w.roomNumber ∧ r.status = .CHECKED_IN)) with
      | none =>
          processWakeBatch now gw rest (updWake db w.id fun u => { u with status := .FAILED })
      | some _ =>
          let db1 := updWake db w.id fun u => { u with attempts := u.attempts + 1 }
          match gw w.id with
          | .success _ =>
              let r := processWakeBatch now gw rest
                (updWake db1 w.id fun u => { u with status := .COMPLETED, completedAt := some now })
              (r.1 + 1, r.2)
          | .failure _ =>
              if 2 ≤ w.attempts then
                processWakeBatch now gw rest
                  (updWake db1 w.id fun u => { u with status := .FAILED })
              else
                processWakeBatch now gw rest db1

/-- `processWakeUpCalls` from the source, gateway as an oracle keyed by
the request id. -/
def processWakeUpCalls (now : Nat) (gw : Nat → GatewayResult) (db : DB) : Nat × DB :=
  processWakeBatch now gw (dueWakeUps now db) db

/-- The upstream guest record returned by the PMS guest endpoint. -/
structure PMSGuest where
  id : String
  firstName : String
  lastName : String
  email : String
  phone : String
  preferredLanguage : Option String
  vipStatus : Option Bool
deriving DecidableEq, Repr

/-- The upstream reservation record returned by the PMS list endpoint
(dates already parsed, status already normalized to the local enum). -/
structure PMSReservation where
  id : String
  guestId : String
  roomNumber : String
  roomType : String
  checkInDate : Nat
  checkOutDate : Nat
  status : ResStatus
  numberOfGuests : Nat
  specialRequests : Option String
deriving DecidableEq, Repr

/-- The `{ synced, errors }` result of `syncFromPMS`. -/
structure SyncResult where
  synced : Nat
  errors : Nat
deriving DecidableEq, Repr

/-- The guest row created by `syncFromPMS` when the external id is
unknown locally (`preferredLanguage || 'en'`, `vipStatus || false`). -/
def mkGuestFromPMS (nid : Nat) (pg : PMSGuest) : Guest :=
  { id := nid, externalId := some pg.id, firstName := pg.firstName,
    lastName := pg.lastName, email := pg.email, phone := pg.phone,
    preferredLanguage := pg.preferredLanguage.getD "en",
    vipStatus := pg.vipStatus.getD false }

/-- `prisma.reservation.upsert({ where: { externalId } })` as performed by
`syncFromPMS`: update the matching row's PMS-owned fields, or insert a new
row linked to the resolved guest. -/
def upsertReservation (db : DB) (guestId : Nat) (pr : PMSReservation) : DB :=
  match db.reservations.find? (fun r => decide (r.externalId = some pr.id)) with
  | some _ =>
      { db with reservations := db.reservations.map fun r =>
          if r.externalId = some pr.id then
            { r with roomNumber := pr.roomNumber, roomType := pr.roomType,
                     checkInDate := pr.checkInDate, checkOutDate := pr.checkOutDate,
                     status := pr.status, numberOfGuests := pr.numberOfGuests,
                     specialRequests := pr.specialRequests }
          else r }
  | none =>
      { db with
          reservations := db.reservations ++
            [{ id := db.nextId, externalId := some pr.id, guestId := guestId,
               roomNumber := pr.roomNumber, roomType := pr.roomType,
               checkInDate := pr.checkInDate, checkOutDate := pr.checkOutDate,
               status := pr.status, numberOfGuests := pr.numberOfGuests,
               specialRequests := pr.specialRequests }],
          nextId := db.nextId + 1 }

/-- One iteration of the `syncFromPMS` loop.  A failure fetching the guest
(the per-item try/catch) increments the error counter and leaves the store
untouched; otherwise the guest is resolved by `findUnique` on
`externalId` (created if absent), the reservation is upserted by its
external id, and the synced counter is incremented. -/
def syncOne (fetchGuest : String → Except String PMSGuest)
    (acc : SyncResult × DB) (pr : PMSReservation) : SyncResult × DB :=
  match fetchGuest pr.guestId with
  | .error _ => ({ acc.1 with errors := acc.1.errors + 1 }, acc.2)
  | .ok pg =>
      let db := acc.2
      match db.guests.find? (fun g => decide (g.externalId = some pg.id)) with
      | some g => ({ acc.1 with synced := acc.1.synced + 1 }, upsertReservation db g.id pr)
      | none =>
          let g := mkGuestFromPMS db.nextId pg
          let db1 := { db with guests := db.guests ++ [g], nextId := db.nextId + 1 }
          ({ acc.1 with synced := acc.1.synced + 1 }, upsertReservation db1 g.id pr)

/-- `syncFromPMS` from the source.  `configured` models the presence of
the PMS credentials (absent → skip with zeros); `fetched` is the outcome
of the top-level reservation-list request (its failure is the outer catch,
returning `{ synced: 0, errors: 1 }`); `fetchGuest` is the per-guest
endpoint. -/
def syncFromPMS (configured : Bool) (fetched : Except String (List PMSReservation))
    (fetchGuest : String → Except String PMSGuest) (db : DB) : SyncResult × DB :=
  if configured then
    match fetched with
    | .error _ => ({ synced := 0, errors := 1 }, db)
    | .ok prs => prs.foldl (syncOne fetchGuest) ({ synced := 0, errors := 0 }, db)
  else ({ synced := 0, errors := 0 }, db)

/-- JS truthiness of an optional string (`undefined`, `null` and `""` are
falsy). -/
def jsTruthy : Option String → Bool
  | none => false
  | some s => !(s == "")

/-- JS `a || b` on optional strings. -/
def jsOr (a b : Option String) : Option String :=
  if jsTruthy a then a else b

/-- `verifyCronSecret` from src/lib/vapi/security.ts.  `secret` is the
presented token, `expectedSecret` the optional parameter, `cronSecretEnv`
the `CRON_SECRET` environment variable, `nodeEnv` the `NODE_ENV` value.
The timing-safe buffer comparison behind its length guard is byte equality
of the UTF-8 encodings, i.e. string equality. -/
def verifyCronSecret (secret expectedSecret cronSecretEnv : Option String)
    (nodeEnv : String) : Bool :=
  if !jsTruthy secret then false
  else
    let expected := jsOr expectedSecret cronSecretEnv
    if !jsTruthy expected then decide (nodeEnv = "development")
    else decide (secret.getD "" = expected.getD "")

/-- Look up the call row with a given id (`find?` on the store). -/
def findCall (db : DB) (i : Nat) : Option ProactiveCall :=
  db.calls.find? fun c => decide (c.id = i)

/-- Number of call rows for one (reservation, call-type) pair. -/
def pairCount (calls : List ProactiveCall) (resId : Nat) (ct : CallType) : Nat :=
  (calls.filter fun c => decide (c.reservationId = resId ∧ c.callType = ct)).length

/-- The at-most-one-ScheduledCall-per-(reservation, call-type) invariant. -/
def AtMostOnePerPair (db : DB) : Prop :=
  ∀ resId ct, pairCount db.calls resId ct ≤ 1

/-- Selector for the four milestone scheduling operations. -/
inductive SchedOp where
  | preArrival
  | midStay
  | preCheckout
  | postStay
deriving DecidableEq, Repr

/-- Run one scheduling operation at a given time, keeping the store. -/
def runSchedOp : SchedOp → Nat → DB → DB
  | .preArrival, now, db => (schedulePreArrivalCalls now db).2
  | .midStay, now, db => (scheduleMidStayCalls now db).2
  | .preCheckout, now, db => (schedulePreCheckoutCalls now db).2
  | .postStay, now, db => (schedulePostStayCalls now db).2

/-- Run a finite sequence of sequentially executed scheduling invocations,
each at its own invocation time. -/
def runSchedSeq : List (SchedOp × Nat) → DB → DB
  | [], db => db
  | (op, t) :: rest, db => runSchedSeq rest (runSchedOp op t db)

/-- An empty Call Record Store. -/
def emptyDB : DB := ⟨[], [], [], [], 1⟩

/-- A gateway oracle that rejects every call. -/
def gwBusy : Nat → GatewayResult := fun _ => .failure "busy"

/-- A checked-in reservation for room 101 (concrete test datum). -/
def resC7 : Reservation :=
  { id := 1, externalId := none, guestId := 1, roomNumber := "101", roomType := "STD",
    checkInDate := 0, checkOutDate := 2880, status := .CHECKED_IN,
    numberOfGuests := 1, specialRequests := none }

/-- A pending wake-up request that has already failed once (concrete test
datum). -/
def wakeReqC7 : WakeUpRequest :=
  { id := 3, roomNumber := "101", requestedTime := 10000, status := .PENDING,
    attempts := 1, completedAt := none }

/-- Store holding `resC7` and `wakeReqC7`. -/
def dbC7 : DB := ⟨[], [resC7], [], [wakeReqC7], 4⟩

/-- A pending wake-up request whose requested time is two days in the
past relative to time 10000 (concrete test datum). -/
def staleWake : WakeUpRequest :=
  { id := 3, roomNumber := "101", requestedTime := 7120, status := .PENDING,
    attempts := 0, completedAt := none }

/-- Store holding only `staleWake`. -/
def dbC8 : DB := ⟨[], [], [], [staleWake], 4⟩

/-- A pending wake-up request whose requested time is 6 minutes in the
past relative to time 10000 (concrete test datum). -/
def wakeSixMinOld : WakeUpRequest :=
  { id := 5, roomNumber := "101", requestedTime := 9994, status := .PENDING,
    attempts := 0, completedAt := none }

/-- Upstream guest with a given id (concrete test datum). -/
def pmsGuestN (n : String) : PMSGuest :=
  { id := n, firstName := n, lastName := "Doe", email := n ++ "@x.com",
    phone := "+15550000", preferredLanguage := none, vipStatus := none }

/-- Upstream reservation with given id and guest id (concrete test datum). -/
def pmsResN (rid gid : String) : PMSReservation :=
  { id := rid, guestId := gid, roomNumber := "101", roomType := "STD",
    checkInDate := 1440, checkOutDate := 4320, status := .CONFIRMED,
    numberOfGuests := 2, specialRequests := none }

/-- A batch of 5 upstream reservations. -/
def pmsBatch5 : List PMSReservation :=
  [pmsResN "R1" "G1", pmsResN "R2" "G2", pmsResN "R3" "G3",
   pmsResN "R4" "G4", pmsResN "R5" "G5"]

/-- A guest endpoint that throws exactly for the third batch item's guest. -/
def fetchGuestFails3 : String → Except String PMSGuest :=
  fun gid => if gid = "G3" then .error "guest fetch failed" else .ok (pmsGuestN gid)

/-- A locally-created guest: no external id, known phone and email. -/
def localGuest : Guest :=
  { id := 1, externalId := none, firstName := "Ann", lastName := "Lee",
    email := "ann@x.com", phone := "+15550001", preferredLanguage := "en",
    vipStatus := false }

/-- Store holding only `localGuest`. -/
def dbC9 : DB := ⟨[localGuest], [], [], [], 2⟩

/-- Upstream guest whose phone and email match `localGuest` but whose
external id is unknown locally. -/
def pmsGuestC9 : PMSGuest :=
  { id := "G-EXT", firstName := "Ann", lastName := "Lee", email := "ann@x.com",
    phone := "+15550001", preferredLanguage := none, vipStatus := none }

/-- Upstream reservation referencing `pmsGuestC9`. -/
def pmsResC9 : PMSReservation :=
  { id := "R-EXT", guestId := "G-EXT", roomNumber := "101", roomType := "STD",
    checkInDate := 1440, checkOutDate := 4320, status := .CONFIRMED,
    numberOfGuests := 1, specialRequests := none }

/-- Guest endpoint returning `pmsGuestC9`. -/
def fetchGuestC9 : String → Except String PMSGuest := fun _ => .ok pmsGuestC9

/-- A due scheduled call with the default attempt bookkeeping (concrete
test datum). -/
def jobC2 : ProactiveCall :=
  { id := 7, reservationId := 1, callType := .PRE_ARRIVAL, scheduledTime := 900,
    actualTime := none, status := .SCHEDULED, attempts := 0, maxAttempts := 3,
    vapiCallId := none, notes := none }

/-- Store holding only `jobC2`. -/
def dbC2 : DB := ⟨[], [], [jobC2], [], 8⟩

/-- A confirmed reservation checking in on the day after time 10000
(concrete test datum, eligible for pre-arrival scheduling at 10000). -/
def resConfirmed : Reservation :=
  { id := 1, externalId := none, guestId := 1, roomNumber := "101", roomType := "STD",
    checkInDate := addDays (startOfDay 10000) 1, checkOutDate := addDays (startOfDay 10000) 3,
    status := .CONFIRMED, numberOfGuests := 2, specialRequests := none }

/-- Store holding only `resConfirmed`. -/
def dbSched : DB := ⟨[], [resConfirmed], [], [], 5⟩

/-- Gateway error message oracle returning "busy" for every call id. -/
def msgBusy : Nat → String := fun _ => "busy"

theorem processBatch_count (now : Nat) (gw : Nat → GatewayResult) (L : List ProactiveCall) :
    ∀ db : DB,
      (processBatch now gw L db).1 = (L.filter fun c => (gw c.id).isSuccess).length := by
  induction L with
  | nil => intro db; rfl
  | cons call rest ih =>
      intro db
      cases h : gw call.id with
      | success cid => simp [processBatch, h, GatewayResult.isSuccess, ih]
      | failure e => simp [processBatch, h, GatewayResult.isSuccess, ih]

/-- C5: the integer returned by processScheduledCalls equals the number of
jobs in the batch for which the gateway accepted the call; jobs whose
gateway invocation fails contribute zero to the count. -/
theorem c5_return_value_counts_successes (now : Nat) (ctFilter : Option CallType)
    (gw : Nat → GatewayResult) (db : DB) :
    (processScheduledCalls now ctFilter gw db).1
      = ((dueCalls now ctFilter db).filter fun c => (gw c.id).isSuccess).length :=
  processBatch_count now gw (dueCalls now ctFilter db) db

/-- C10: for a non-empty presented secret with no configured CRON_SECRET
(and no explicit expected secret), verifyCronSecret returns true exactly
when NODE_ENV is "development". -/
theorem c10_cron_secret_dev_fallback (s env : String) (hs : s ≠ "") :
    verifyCronSecret (some s) none none env = true ↔ env = "development" := by
  simp [verifyCronSecret, jsTruthy, jsOr, hs]

theorem c10_cron_secret_dev_fallback_witness :
    ("token" : String) ≠ "" ∧
      (verifyCronSecret (some "token") none none "production" = true
        ↔ "production" = "development") :=
  ⟨by decide, c10_cron_secret_dev_fallback "token" "production" (by decide)⟩

/-- C6: syncFromPMS isolates per-item failures — on the 5-item batch whose
third item's guest resolution throws, the result is synced = 4,
errors = 1 and the other four reservations are upserted; a top-level
failure to reach the PMS returns a zero-synced, one-error result without
propagating (the function is total and returns the pair). -/
theorem c6_sync_isolates_failures :
    ((syncFromPMS true (.ok pmsBatch5) fetchGuestFails3 emptyDB).1
        = { synced := 4, errors := 1 } ∧
      (syncFromPMS true (.ok pmsBatch5) fetchGuestFails3 emptyDB).2.reservations.map
          Reservation.externalId
        = [some "R1", some "R2", some "R4", some "R5"]) ∧
    ∀ (db : DB) (e : String) (fg : String → Except String PMSGuest),
      syncFromPMS true (.error e) fg db = ({ synced := 0, errors := 1 }, db) :=
  ⟨by decide, fun _ _ _ => rfl⟩

/-- C8 counterexample: a pending wake-up request whose requested time is
two days in the past at time 10000 (in particular more than 5 minutes in
the past) is NOT selected by the wake-up due query, and a dispatch pass
leaves the store untouched — contradicting the claim that there is no
upper expiry on how old a pending request may be before it is attempted. -/
theorem c8_counterexample :
    staleWake ∈ dbC8.wakeUps ∧ staleWake.status = .PENDING ∧
    staleWake.requestedTime + 5 < 10000 ∧
    staleWake.requestedTime + minutesPerDay < 10000 ∧
    dueWakeUps 10000 dbC8 = [] ∧
    processWakeUpCalls 10000 gwBusy dbC8 = (0, dbC8) := by decide

/-- C8 amended: the wake-up selection window is [now − 1 day, now], not
[now − 5 minutes, now] — the 5/(24*60) fractional day amount truncates to
a whole day inside date-fns subDays.  A pending request more than 5
minutes old therefore stays eligible only while it is at most one day
old: within one day the selection predicate accepts it, and once the
requested time is more than one day in the past the request is never
selected — there IS an upper expiry, at one day. -/
theorem c8_amended_one_day_window :
    (∀ (now : Nat) (w : WakeUpRequest), w.status = .PENDING →
        now - minutesPerDay ≤ w.requestedTime → w.requestedTime ≤ now →
        wakeDueFilter now w = true) ∧
    ∀ (now : Nat) (db : DB) (w : WakeUpRequest),
        w.requestedTime + minutesPerDay < now → w ∉ dueWakeUps now db := by
  constructor
  · intro now w h1 h2 h3
    simp [wakeDueFilter, h1, h2, h3]
  · intro now db w h hmem
    simp only [dueWakeUps] at hmem
    have hf := (List.mem_filter.1 (List.mem_of_mem_take hmem)).2
    simp only [wakeDueFilter, Bool.and_eq_true, decide_eq_true_eq] at hf
    obtain ⟨⟨-, h2⟩, -⟩ := hf
    simp only [minutesPerDay] at h h2
    omega

theorem c8_amended_one_day_window_witness :
    (wakeSixMinOld.status = .PENDING ∧
      (10000 : Nat) - minutesPerDay ≤ wakeSixMinOld.requestedTime ∧
      wakeSixMinOld.requestedTime + 5 < 10000 ∧
      wakeSixMinOld.requestedTime ≤ 10000 ∧
      wakeDueFilter 10000 wakeSixMinOld = true) ∧
    staleWake.requestedTime + minutesPerDay < 10000 ∧
    staleWake ∉ dueWakeUps 10000 dbC8 := by
  refine ⟨⟨by decide, by decide, by decide, by decide, ?_⟩, by decide, ?_⟩
  · exact c8_amended_one_day_window.1 10000 wakeSixMinOld (by decide) (by decide) (by decide)
  · exact c8_amended_one_day_window.2 10000 dbC8 staleWake (by decide)

/-- C7 counterexample: a pending wake-up request with one prior failed
attempt is left pending (not marked failed) after its second gateway
failure, and IS attempted against the gateway a third time on the next
sweep (attempts reaches 3) — contradicting "terminal at 2 failed
attempts, never attempted a third time". -/
theorem c7_counterexample :
    (processWakeUpCalls 10000 gwBusy dbC7).2.wakeUps
        = [{ wakeReqC7 with attempts := 2 }] ∧
    (processWakeUpCalls 10003 gwBusy (processWakeUpCalls 10000 gwBusy dbC7).2).2.wakeUps
        = [{ wakeReqC7 with attempts := 3, status := .FAILED }] := by decide

theorem upsertReservation_guests (db : DB) (gid : Nat) (pr : PMSReservation) :
    (upsertReservation db gid pr).guests = db.guests := by
  cases h : db.reservations.find? (fun r => decide (r.externalId = some pr.id)) with
  | none => simp [upsertReservation, h]
  | some r => simp [upsertReservation, h]

/-- C9 counterexample: syncing an upstream reservation whose guest matches
a locally-created guest (no external id) by phone AND email still creates
a brand-new guest row (store grows to 2 guests) and links the reservation
to the new guest, not the matching local one — contradicting the claimed
phone/email fallback. -/
theorem c9_counterexample :
    localGuest.externalId = none ∧ localGuest.phone = pmsGuestC9.phone ∧
    localGuest.email = pmsGuestC9.email ∧
    (syncFromPMS true (.ok [pmsResC9]) fetchGuestC9 dbC9).2.guests.length = 2 ∧
    (syncFromPMS true (.ok [pmsResC9]) fetchGuestC9 dbC9).2.reservations.map
        Reservation.guestId = [2] := by decide

/-- C9 amended: PMS guest resolution is keyed solely on the external
identifier — when the upstream guest's id is unknown locally a new guest
row is always created, even if an existing locally-created guest matches
by phone. -/
theorem c9_amended_external_id_only (db : DB) (pg : PMSGuest) (pr : PMSReservation)
    (g0 : Guest)
    (hfind : db.guests.find? (fun g => decide (g.externalId = some pg.id)) = none)
    (hg0 : g0 ∈ db.guests) (hphone : g0.phone = pg.phone) :
    (syncFromPMS true (.ok [pr]) (fun _ => .ok pg) db).2.guests
      = db.guests ++ [mkGuestFromPMS db.nextId pg] := by
  show (syncOne (fun _ => .ok pg) ({ synced := 0, errors := 0 }, db) pr).2.guests = _
  simp [syncOne, hfind, upsertReservation_guests]

theorem c9_amended_external_id_only_witness :
    dbC9.guests.find? (fun g => decide (g.externalId = some pmsGuestC9.id)) = none ∧
    localGuest ∈ dbC9.guests ∧ localGuest.phone = pmsGuestC9.phone ∧
    (syncFromPMS true (.ok [pmsResC9]) (fun _ => .ok pmsGuestC9) dbC9).2.guests
      = dbC9.guests ++ [mkGuestFromPMS dbC9.nextId pmsGuestC9] :=
  ⟨by decide, by decide, by decide,
    c9_amended_external_id_only dbC9 pmsGuestC9 pmsResC9 localGuest
      (by decide) (by decide) (by decide)⟩

/-- C7 amended: on a gateway failure the wake-up request is marked failed
exactly when the attempt count fetched at selection (the count before this
sweep's increment) has already reached 2 — i.e. on the third failed
attempt, after which attempts = 3 and the request, being FAILED, is never
selected again; with fewer prior attempts it is left pending. -/
theorem c7_amended_terminal_on_third_failure (gs : List Guest) (cs : List ProactiveCall)
    (nid now : Nat) (res : Reservation) (w : WakeUpRequest) (gw : Nat → GatewayResult)
    (e : String)
    (hw : w.status = .PENDING) (h1 : now - 5 ≤ w.requestedTime)
    (h2 : w.requestedTime ≤ now)
    (hroom : res.roomNumber = w.roomNumber) (hres : res.status = .CHECKED_IN)
    (hgw : gw w.id = .failure e) :
    (2 ≤ w.attempts →
      (processWakeUpCalls now gw ⟨gs, [res], cs, [w], nid⟩).2.wakeUps
          = [{ w with attempts := w.attempts + 1, status := .FAILED }] ∧
      ∀ now2, dueWakeUps now2 (processWakeUpCalls now gw ⟨gs, [res], cs, [w], nid⟩).2 = []) ∧
    (w.attempts < 2 →
      (processWakeUpCalls now gw ⟨gs, [res], cs, [w], nid⟩).2.wakeUps
          = [{ w with attempts := w.attempts + 1 }]) := by
  have h1i : now - minutesPerDay ≤ w.requestedTime := by
    simp only [minutesPerDay]
    omega
  have hdue : dueWakeUps now ⟨gs, [res], cs, [w], nid⟩ = [w] := by
    simp [dueWakeUps, wakeDueFilter, hw, h1i, h2]
  constructor
  · intro hle
    have hlist : (processWakeUpCalls now gw ⟨gs, [res], cs, [w], nid⟩).2.wakeUps
        = [{ w with attempts := w.attempts + 1, status := .FAILED }] := by
      simp [processWakeUpCalls, hdue, processWakeBatch, updWake, hroom, hres, hgw, hle]
    refine ⟨hlist, fun now2 => ?_⟩
    simp [dueWakeUps, hlist, wakeDueFilter]
  · intro hlt
    have hnle : ¬ 2 ≤ w.attempts := by omega
    simp [processWakeUpCalls, hdue, processWakeBatch, updWake, hroom, hres, hgw, hnle]

theorem c7_amended_terminal_on_third_failure_witness :
    ({ wakeReqC7 with attempts := 2 } : WakeUpRequest).status = .PENDING ∧
    (10000 : Nat) - 5 ≤ ({ wakeReqC7 with attempts := 2 } : WakeUpRequest).requestedTime ∧
    ({ wakeReqC7 with attempts := 2 } : WakeUpRequest).requestedTime ≤ 10000 ∧
    resC7.roomNumber = wakeReqC7.roomNumber ∧ resC7.status = .CHECKED_IN ∧
    gwBusy wakeReqC7.id = .failure "busy" ∧
    (2 ≤ ({ wakeReqC7 with attempts := 2 } : WakeUpRequest).attempts →
      (processWakeUpCalls 10000 gwBusy
          ⟨[], [resC7], [], [{ wakeReqC7 with attempts := 2 }], 4⟩).2.wakeUps
        = [{ wakeReqC7 with attempts := 3, status := .FAILED }]) := by
  refine ⟨by decide, by decide, by decide, by decide, by decide, by decide, fun hle => ?_⟩
  exact ((c7_amended_terminal_on_third_failure [] [] 4 10000 resC7
      { wakeReqC7 with attempts := 2 } gwBusy "busy"
      (by decide) (by decide) (by decide) (by decide) (by decide) (by decide)).1 hle).1

theorem hasCall_append (a b : List ProactiveCall) (resId : Nat) (ct : CallType) :
    hasCall (a ++ b) resId ct = (hasCall a resId ct || hasCall b resId ct) := by
  simp [hasCall, List.any_append]

theorem hasCall_createCalls_of_mem (ct : CallType) (t : Nat) (r : Reservation)
    (E : List Reservation) :
    ∀ nid, r ∈ E → hasCall (createCalls ct t nid E) r.id ct = true := by
  induction E with
  | nil => intro nid h; cases h
  | cons x xs ih =>
      intro nid h
      rcases List.mem_cons.1 h with h | h
      · subst h; simp [createCalls, hasCall]
      · have hx := ih (nid + 1) h
        simp only [hasCall, createCalls, List.any_cons, Bool.or_eq_true] at hx ⊢
        exact Or.inr hx

theorem scheduleMilestone_hasCall (ct : CallType) (window : Reservation → Bool) (t : Nat)
    (db : DB) (r : Reservation) (hr : r ∈ db.reservations) (hw : window r = true) :
    hasCall (scheduleMilestone ct window t db).2.calls r.id ct = true := by
  by_cases hc : hasCall db.calls r.id ct = true
  · simp [scheduleMilestone, hasCall_append, hc]
  · simp only [Bool.not_eq_true] at hc
    have hmem : r ∈ db.reservations.filter
        (fun x => window x && !hasCall db.calls x.id ct) :=
      List.mem_filter.2 ⟨hr, by simp [hw, hc]⟩
    simp [scheduleMilestone, hasCall_append,
      hasCall_createCalls_of_mem ct t r _ db.nextId hmem]

theorem scheduleMilestone_of_filter_nil (ct : CallType) (window : Reservation → Bool)
    (t : Nat) (db : DB)
    (h : db.reservations.filter (fun x => window x && !hasCall db.calls x.id ct) = []) :
    scheduleMilestone ct window t db = (0, db) := by
  simp [scheduleMilestone, h, createCalls]

theorem scheduleMilestone_twice (ct : CallType) (window : Reservation → Bool)
    (t t2 : Nat) (db : DB) :
    scheduleMilestone ct window t2 (scheduleMilestone ct window t db).2
      = (0, (scheduleMilestone ct window t db).2) := by
  apply scheduleMilestone_of_filter_nil
  rw [show (scheduleMilestone ct window t db).2.reservations = db.reservations from rfl]
  rw [List.filter_eq_nil_iff]
  intro r hr
  by_cases hw : window r = true
  · simp [scheduleMilestone_hasCall ct window t db r hr hw]
  · simp only [Bool.not_eq_true] at hw
    simp [hw]

/-- C3: invoking schedulePreArrivalCalls twice in succession (same time,
no intervening changes) creates a job for every eligible reservation on
the first invocation, and the second invocation creates zero new rows and
returns 0 (the store is unchanged). -/
theorem c3_pre_arrival_idempotent (now : Nat) (db : DB) :
    (∀ r ∈ db.reservations, preArrivalWindow now r = true →
        hasCall (schedulePreArrivalCalls now db).2.calls r.id .PRE_ARRIVAL = true) ∧
    schedulePreArrivalCalls now (schedulePreArrivalCalls now db).2
      = (0, (schedulePreArrivalCalls now db).2) := by
  constructor
  · intro r hr hw
    exact scheduleMilestone_hasCall _ _ _ db r hr hw
  · exact scheduleMilestone_twice _ _ _ _ db

theorem c3_pre_arrival_idempotent_witness :
    (resConfirmed ∈ dbSched.reservations ∧ preArrivalWindow 10000 resConfirmed = true ∧
      hasCall (schedulePreArrivalCalls 10000 dbSched).2.calls resConfirmed.id
        .PRE_ARRIVAL = true) ∧
    schedulePreArrivalCalls 10000 (schedulePreArrivalCalls 10000 dbSched).2
      = (0, (schedulePreArrivalCalls 10000 dbSched).2) := by
  refine ⟨⟨by decide, by decide, ?_⟩, (c3_pre_arrival_idempotent 10000 dbSched).2⟩
  exact (c3_pre_arrival_idempotent 10000 dbSched).1 resConfirmed (by decide) (by decide)

theorem processScheduledCalls_single_fail (gs : List Guest) (rs : List Reservation)
    (ws : List WakeUpRequest) (nid : Nat) (j : ProactiveCall) (t : Nat)
    (msg : Nat → String)
    (hst : j.status = .SCHEDULED) (hs : j.scheduledTime ≤ t) (hat : j.attempts < 3) :
    processScheduledCalls t none (fun i => .failure (msg i)) ⟨gs, rs, [j], ws, nid⟩
      = (0, ⟨gs, rs, [{ j with
            status := if j.maxAttempts ≤ j.attempts + 1 then .FAILED else .SCHEDULED,
            attempts := j.attempts + 1, actualTime := some t,
            scheduledTime := addHours t 1, notes := some (msg j.id) }], ws, nid⟩) := by
  have hdue : dueCalls t none (⟨gs, rs, [j], ws, nid⟩ : DB) = [j] := by
    simp [dueCalls, dueFilter, hst, hs, hat, List.insertionSort, List.orderedInsert]
  show processBatch t (fun i => .failure (msg i))
      (dueCalls t none (⟨gs, rs, [j], ws, nid⟩ : DB)) ⟨gs, rs, [j], ws, nid⟩ = _
  rw [hdue]
  obtain ⟨jid, jres, jct, jsched, jactual, jstat, jatt, jmax, jvapi, jnotes⟩ := j
  simp [processBatch, updCall]

/-- C2: a scheduled job with maxAttempts = 3 and attempts = 0 whose
gateway invocation fails on every attempt ends, after three dispatch
passes that each find it due, with status FAILED and attempts = 3, and
the due-job selection predicate never selects it again at any later time
or under any call-type filter. -/
theorem c2_retry_ceiling (gs : List Guest) (rs : List Reservation)
    (ws : List WakeUpRequest) (nid : Nat) (j : ProactiveCall) (t1 t2 t3 : Nat)
    (msg : Nat → String)
    (hst : j.status = .SCHEDULED) (ha : j.attempts = 0) (hm : j.maxAttempts = 3)
    (h1 : j.scheduledTime ≤ t1) (h2 : t1 + 60 ≤ t2) (h3 : t2 + 60 ≤ t3) :
    ((processScheduledCalls t3 none (fun i => .failure (msg i))
        ((processScheduledCalls t2 none (fun i => .failure (msg i))
          ((processScheduledCalls t1 none (fun i => .failure (msg i))
            ⟨gs, rs, [j], ws, nid⟩).2)).2)).2).calls
      = [{ j with
            status := .FAILED, attempts := 3, actualTime := some t3,
            scheduledTime := addHours t3 1, notes := some (msg j.id) }] ∧
    ∀ (now : Nat) (ctf : Option CallType),
      dueCalls now ctf ((processScheduledCalls t3 none (fun i => .failure (msg i))
        ((processScheduledCalls t2 none (fun i => .failure (msg i))
          ((processScheduledCalls t1 none (fun i => .failure (msg i))
            ⟨gs, rs, [j], ws, nid⟩).2)).2)).2) = [] := by
  obtain ⟨jid, jres, jct, jsched, jactual, jstat, jatt, jmax, jvapi, jnotes⟩ := j
  replace hst : jstat = CallStatus.SCHEDULED := hst
  replace ha : jatt = 0 := ha
  replace hm : jmax = 3 := hm
  replace h1 : jsched ≤ t1 := h1
  subst hst ha hm
  have p1 := processScheduledCalls_single_fail gs rs ws nid
    ⟨jid, jres, jct, jsched, jactual, .SCHEDULED, 0, 3, jvapi, jnotes⟩ t1 msg rfl h1
    (by norm_num)
  norm_num at p1
  have p2 := processScheduledCalls_single_fail gs rs ws nid
    ⟨jid, jres, jct, addHours t1 1, some t1, .SCHEDULED, 1, 3, jvapi, some (msg jid)⟩ t2 msg
    rfl (by simpa [addHours] using h2) (by norm_num)
  norm_num at p2
  have p3 := processScheduledCalls_single_fail gs rs ws nid
    ⟨jid, jres, jct, addHours t2 1, some t2, .SCHEDULED, 2, 3, jvapi, some (msg jid)⟩ t3 msg
    rfl (by simpa [addHours] using h3) (by norm_num)
  norm_num at p3
  have e3 : ((processScheduledCalls t3 none (fun i => .failure (msg i))
        ((processScheduledCalls t2 none (fun i => .failure (msg i))
          ((processScheduledCalls t1 none (fun i => .failure (msg i))
            (⟨gs, rs, [⟨jid, jres, jct, jsched, jactual, .SCHEDULED, 0, 3, jvapi, jnotes⟩],
              ws, nid⟩ : DB)).2)).2)).2)
      = ⟨gs, rs, [⟨jid, jres, jct, addHours t3 1, some t3, .FAILED, 3, 3, jvapi,
          some (msg jid)⟩], ws, nid⟩ := by
    rw [p1]
    dsimp only
    rw [p2]
    dsimp only
    rw [p3]
  refine ⟨by rw [e3], fun now ctf => ?_⟩
  rw [e3]
  cases ctf <;> simp [dueCalls, dueFilter, List.insertionSort]

theorem c2_retry_ceiling_witness :
    jobC2.status = .SCHEDULED ∧ jobC2.attempts = 0 ∧ jobC2.maxAttempts = 3 ∧
    jobC2.scheduledTime ≤ 1000 ∧ (1000 : Nat) + 60 ≤ 1100 ∧ (1100 : Nat) + 60 ≤ 1200 ∧
    ((processScheduledCalls 1200 none (fun i => .failure (msgBusy i))
        ((processScheduledCalls 1100 none (fun i => .failure (msgBusy i))
          ((processScheduledCalls 1000 none (fun i => .failure (msgBusy i))
            ⟨[], [], [jobC2], [], 8⟩).2)).2)).2).calls
      = [{ jobC2 with
            status := .FAILED, attempts := 3, actualTime := some 1200,
            scheduledTime := addHours 1200 1, notes := some (msgBusy jobC2.id) }] ∧
    dueCalls 5000 none ((processScheduledCalls 1200 none (fun i => .failure (msgBusy i))
        ((processScheduledCalls 1100 none (fun i => .failure (msgBusy i))
          ((processScheduledCalls 1000 none (fun i => .failure (msgBusy i))
            ⟨[], [], [jobC2], [], 8⟩).2)).2)).2) = [] := by
  refine ⟨by decide, by decide, by decide, by decide, by decide, by decide, ?_, ?_⟩
  · exact (c2_retry_ceiling [] [] [] 8 jobC2 1000 1100 1200 msgBusy
      (by decide) (by decide) (by decide) (by decide) (by decide) (by decide)).1
  · exact (c2_retry_ceiling [] [] [] 8 jobC2 1000 1100 1200 msgBusy
      (by decide) (by decide) (by decide) (by decide) (by decide) (by decide)).2 5000 none

theorem find?_map_upd (i : Nat) (f : ProactiveCall → ProactiveCall)
    (hf : ∀ c, (f c).id = c.id) (k : Nat) (l : List ProactiveCall) :
    (l.map fun c => if c.id = i then f c else c).find? (fun c => decide (c.id = k))
      = if k = i then (l.find? fun c => decide (c.id = k)).map f
        else l.find? fun c => decide (c.id = k) := by
  induction l with
  | nil => by_cases h : k = i <;> simp [h]
  | cons c l ih =>
      by_cases hci : c.id = i
      · by_cases hck : c.id = k
        · have hki : k = i := by rw [← hck, hci]
          simp [hci, hck, hki, hf]
        · have hki : k ≠ i := fun h => hck (by rw [hci, ← h])
          simp only [List.map_cons, hci, if_pos, ite_true]
          rw [List.find?_cons_of_neg _ (by simp [hf, hck]),
            List.find?_cons_of_neg _ (by simp [hck])] at *
          simpa [hki] using ih
      · by_cases hck : c.id = k
        · have hki : k ≠ i := fun h => hci (by rw [hck, h])
          simp [hci, hck, hki]
        · simp only [List.map_cons, hci, if_neg, ite_false]
          rw [List.find?_cons_of_neg _ (by simp [hck]),
            List.find?_cons_of_neg _ (by simp [hck])]
          exact ih

theorem findCall_updCall (db : DB) (i k : Nat) (f : ProactiveCall → ProactiveCall)
    (hf : ∀ c, (f c).id = c.id) :
    findCall (updCall db i f) k
      = if k = i then (findCall db k).map f else findCall db k :=
  find?_map_upd i f hf k db.calls

theorem processBatch_find_preserved (now : Nat) (gw : Nat → GatewayResult)
    (L : List ProactiveCall) :
    ∀ (db : DB) (i : Nat), (∀ x ∈ L, x.id ≠ i) →
      findCall ((processBatch now gw L db).2) i = findCall db i := by
  induction L with
  | nil => intro db i _; rfl
  | cons c L ih =>
      intro db i h
      have hc : c.id ≠ i := h c (List.mem_cons_self c L)
      have hrest : ∀ x ∈ L, x.id ≠ i := fun x hx => h x (List.mem_cons_of_mem c hx)
      cases hgw : gw c.id with
      | success cid =>
          simp only [processBatch, hgw]
          rw [ih _ i hrest]
          rw [findCall_updCall]
          rw [if_neg (Ne.symm hc)]
          rw [findCall_updCall]
          rw [if_neg (Ne.symm hc)]
          all_goals exact fun z => rfl
      | failure e2 =>
          simp only [processBatch, hgw]
          rw [ih _ i hrest]
          rw [findCall_updCall]
          rw [if_neg (Ne.symm hc)]
          rw [findCall_updCall]
          rw [if_neg (Ne.symm hc)]
          all_goals exact fun z => rfl

theorem processBatch_fail_sets_backoff (now : Nat) (gw : Nat → GatewayResult)
    (e : String) (L : List ProactiveCall) :
    ∀ (db : DB) (c : ProactiveCall), (L.map ProactiveCall.id).Nodup → c ∈ L →
      findCall db c.id = some c → gw c.id = .failure e →
      c.attempts + 1 < c.maxAttempts →
      findCall ((processBatch now gw L db).2) c.id
        = some { c with
            status := .SCHEDULED, attempts := c.attempts + 1, actualTime := some now,
            scheduledTime := addHours now 1, notes := some e } := by
  induction L with
  | nil => intro db c _ hc; cases hc
  | cons x L ih =>
      intro db c hnd hc hfind hgw hlt
      have hnd1 : x.id ∉ L.map ProactiveCall.id := (List.nodup_cons.1 hnd).1
      have hnd2 : (L.map ProactiveCall.id).Nodup := (List.nodup_cons.1 hnd).2
      rcases List.mem_cons.1 hc with rfl | hcL
      · have hothers : ∀ y ∈ L, y.id ≠ c.id := fun y hy hEq =>
          hnd1 (hEq ▸ List.mem_map_of_mem ProactiveCall.id hy)
        simp only [processBatch, hgw]
        rw [processBatch_find_preserved now gw L _ c.id hothers]
        rw [findCall_updCall]
        rw [if_pos rfl]
        rw [findCall_updCall]
        rw [if_pos rfl, hfind]
        · simp [Nat.not_le.2 hlt]
        all_goals exact fun z => rfl
      · have hxc : x.id ≠ c.id := fun hEq =>
          hnd1 (hEq ▸ List.mem_map_of_mem ProactiveCall.id hcL)
        cases hgwx : gw x.id with
        | success cid =>
            simp only [processBatch, hgwx]
            apply ih _ c hnd2 hcL ?_ hgw hlt
            rw [findCall_updCall]
            rw [if_neg (Ne.symm hxc)]
            rw [findCall_updCall]
            rw [if_neg (Ne.symm hxc)]
            · exact hfind
            all_goals exact fun z => rfl
        | failure e2 =>
            simp only [processBatch, hgwx]
            apply ih _ c hnd2 hcL ?_ hgw hlt
            rw [findCall_updCall]
            rw [if_neg (Ne.symm hxc)]
            rw [findCall_updCall]
            rw [if_neg (Ne.symm hxc)]
            · exact hfind
            all_goals exact fun z => rfl

theorem mem_dueCalls (now : Nat) (ctf : Option CallType) (db : DB) (c : ProactiveCall)
    (h : c ∈ dueCalls now ctf db) : c ∈ db.calls := by
  simp only [dueCalls] at h
  exact (List.mem_filter.1 ((List.mem_insertionSort _).1 (List.mem_of_mem_take h))).1

theorem dueCalls_ids_nodup (now : Nat) (ctf : Option CallType) (db : DB)
    (h : (db.calls.map ProactiveCall.id).Nodup) :
    ((dueCalls now ctf db).map ProactiveCall.id).Nodup := by
  have hfilter : ((db.calls.filter (dueFilter now ctf)).map ProactiveCall.id).Nodup :=
    List.Nodup.sublist ((List.filter_sublist db.calls).map ProactiveCall.id) h
  have hperm := (List.perm_insertionSort
    (fun a b : ProactiveCall => a.scheduledTime ≤ b.scheduledTime)
    (db.calls.filter (dueFilter now ctf))).map ProactiveCall.id
  exact List.Nodup.sublist ((List.take_sublist 10 _).map ProactiveCall.id)
    (hperm.symm.nodup hfilter)

theorem find?_id_eq_of_nodup : ∀ l : List ProactiveCall,
    (l.map ProactiveCall.id).Nodup → ∀ c ∈ l,
      l.find? (fun x => decide (x.id = c.id)) = some c := by
  intro l
  induction l with
  | nil => intro _ c hc; cases hc
  | cons x L ih =>
      intro hnd c hc
      rcases List.mem_cons.1 hc with rfl | hcL
      · simp
      · have hxc : ¬ (x.id = c.id) := fun hEq =>
          (List.nodup_cons.1 hnd).1 (hEq ▸ List.mem_map_of_mem ProactiveCall.id hcL)
        rw [List.find?_cons_of_neg _ (by simp [hxc])]
        exact ih (List.nodup_cons.1 hnd).2 c hcL

/-- C4: a due job whose gateway invocation fails and whose attempts after
this attempt have not reached its maxAttempts is set back to status
SCHEDULED with scheduled time = now + exactly 1 hour (fixed linear
backoff) and notes = the gateway error message. -/
theorem c4_failure_backoff (now : Nat) (ctf : Option CallType)
    (gw : Nat → GatewayResult) (db : DB) (c : ProactiveCall) (e : String)
    (hnodup : (db.calls.map ProactiveCall.id).Nodup)
    (hc : c ∈ dueCalls now ctf db)
    (hgw : gw c.id = .failure e)
    (hlt : c.attempts + 1 < c.maxAttempts) :
    findCall (processScheduledCalls now ctf gw db).2 c.id
      = some { c with
          status := .SCHEDULED, attempts := c.attempts + 1, actualTime := some now,
          scheduledTime := addHours now 1, notes := some e } :=
  processBatch_fail_sets_backoff now gw e (dueCalls now ctf db) db c
    (dueCalls_ids_nodup now ctf db hnodup) hc
    (find?_id_eq_of_nodup db.calls hnodup c (mem_dueCalls now ctf db c hc)) hgw hlt

theorem c4_failure_backoff_witness :
    (dbC2.calls.map ProactiveCall.id).Nodup ∧ jobC2 ∈ dueCalls 1000 none dbC2 ∧
    gwBusy jobC2.id = .failure "busy" ∧ jobC2.attempts + 1 < jobC2.maxAttempts ∧
    findCall (processScheduledCalls 1000 none gwBusy dbC2).2 jobC2.id
      = some { jobC2 with
          status := .SCHEDULED, attempts := jobC2.attempts + 1, actualTime := some 1000,
          scheduledTime := addHours 1000 1, notes := some "busy" } := by
  refine ⟨by decide, by decide, by decide, by decide, ?_⟩
  exact c4_failure_backoff 1000 none gwBusy dbC2 jobC2 "busy"
    (by decide) (by decide) (by decide) (by decide)

theorem pairCount_append (a b : List ProactiveCall) (resId : Nat) (ct : CallType) :
    pairCount (a ++ b) resId ct = pairCount a resId ct + pairCount b resId ct := by
  simp [pairCount, List.filter_append]

theorem pairCount_cons (c : ProactiveCall) (l : List ProactiveCall) (resId : Nat)
    (ct : CallType) :
    pairCount (c :: l) resId ct
      = (if c.reservationId = resId ∧ c.callType = ct then 1 else 0)
          + pairCount l resId ct := by
  by_cases h : c.reservationId = resId ∧ c.callType = ct
  · simp [pairCount, List.filter_cons, h, Nat.add_comm]
  · simp [pairCount, List.filter_cons, h]

theorem pairCount_createCalls (ct ct2 : CallType) (t resId : Nat) :
    ∀ (E : List Reservation) (nid : Nat),
      pairCount (createCalls ct t nid E) resId ct2
        = if ct2 = ct then (E.filter fun r => decide (r.id = resId)).length else 0 := by
  intro E
  induction E with
  | nil => intro nid; by_cases h : ct2 = ct <;> simp [createCalls, pairCount, h]
  | cons r rs ih =>
      intro nid
      rw [createCalls, pairCount_cons, ih (nid + 1)]
      by_cases hct : ct2 = ct
      · subst hct
        by_cases hr : r.id = resId
        · simp [List.filter_cons, hr]
          omega
        · simp [List.filter_cons, hr]
      · have hct2 : ¬ (ct = ct2) := fun h => hct h.symm
        simp [hct, hct2]

theorem filter_id_length_le_one :
    ∀ E : List Reservation, (E.map Reservation.id).Nodup → ∀ resId : Nat,
      (E.filter fun r => decide (r.id = resId)).length ≤ 1 := by
  intro E
  induction E with
  | nil => intro _ _; simp
  | cons r rs ih =>
      intro hnd resId
      by_cases hr : r.id = resId
      · have hnil : rs.filter (fun x => decide (x.id = resId)) = [] := by
          rw [List.filter_eq_nil_iff]
          intro x hx
          simp only [decide_eq_true_eq]
          intro hEq
          exact (List.nodup_cons.1 hnd).1
            (by rw [hr, ← hEq]; exact List.mem_map_of_mem _ hx)
        simp [List.filter_cons, hr, hnil]
      · simp only [List.filter_cons, decide_eq_true_eq, hr, ite_false]
        exact ih (List.nodup_cons.1 hnd).2 resId

theorem pairCount_eq_zero_of_hasCall_false (calls : List ProactiveCall) (resId : Nat)
    (ct : CallType) (h : hasCall calls resId ct = false) :
    pairCount calls resId ct = 0 := by
  simp only [hasCall, List.any_eq_false] at h
  rw [pairCount, List.length_eq_zero, List.filter_eq_nil_iff]
  exact h

theorem scheduleMilestone_preserves_atMostOne (ct : CallType) (window : Reservation → Bool)
    (t : Nat) (db : DB)
    (hids : (db.reservations.map Reservation.id).Nodup)
    (hinv : AtMostOnePerPair db) :
    AtMostOnePerPair (scheduleMilestone ct window t db).2 := by
  intro resId ct2
  have hcalls : (scheduleMilestone ct window t db).2.calls
      = db.calls ++ createCalls ct t db.nextId
          (db.reservations.filter fun r => window r && !hasCall db.calls r.id ct) := rfl
  rw [hcalls, pairCount_append, pairCount_createCalls]
  have hEnd : (((db.reservations.filter
        fun r => window r && !hasCall db.calls r.id ct)).map Reservation.id).Nodup :=
    List.Nodup.sublist ((List.filter_sublist db.reservations).map Reservation.id) hids
  by_cases hct : ct2 = ct
  · subst hct
    rw [if_pos rfl]
    have hle := filter_id_length_le_one _ hEnd resId
    rcases Nat.eq_zero_or_pos (((db.reservations.filter
        fun r => window r && !hasCall db.calls r.id ct2).filter
          fun r => decide (r.id = resId)).length) with hz | hpos
    · rw [hz]
      simpa using hinv resId ct2
    · have hne : (db.reservations.filter
          fun r => window r && !hasCall db.calls r.id ct2).filter
            (fun r => decide (r.id = resId)) ≠ [] := by
        intro hnil
        rw [hnil] at hpos
        exact Nat.lt_irrefl 0 hpos
      obtain ⟨x, hx⟩ := List.exists_mem_of_ne_nil _ hne
      have hx2 := List.mem_filter.1 hx
      have hxid : x.id = resId := by simpa using hx2.2
      have hxE := List.mem_filter.1 hx2.1
      have hno : hasCall db.calls x.id ct2 = false := by
        have hw := hxE.2
        simp only [Bool.and_eq_true, Bool.not_eq_true'] at hw
        exact hw.2
      have hz2 : pairCount db.calls resId ct2 = 0 := by
        rw [← hxid]
        exact pairCount_eq_zero_of_hasCall_false _ _ _ hno
      omega
  · rw [if_neg hct]
    simpa using hinv resId ct2

theorem runSchedOp_reservations (op : SchedOp) (now : Nat) (db : DB) :
    (runSchedOp op now db).reservations = db.reservations := by
  cases op <;> rfl

theorem runSchedOp_preserves_atMostOne (op : SchedOp) (now : Nat) (db : DB)
    (hids : (db.reservations.map Reservation.id).Nodup)
    (hinv : AtMostOnePerPair db) :
    AtMostOnePerPair (runSchedOp op now db) := by
  cases op
  · exact scheduleMilestone_preserves_atMostOne _ _ _ db hids hinv
  · exact scheduleMilestone_preserves_atMostOne _ _ _ db hids hinv
  · exact scheduleMilestone_preserves_atMostOne _ _ _ db hids hinv
  · exact scheduleMilestone_preserves_atMostOne _ _ _ db hids hinv

/-- C1: after any finite sequence of sequentially executed invocations of
the four scheduling operations, the store holds at most one ProactiveCall
row per (reservation, call-type) pair — enforced by the query-before-insert
non-existence filter, given unique reservation ids. -/
theorem c1_at_most_one_per_pair (ops : List (SchedOp × Nat)) :
    ∀ db : DB, (db.reservations.map Reservation.id).Nodup → AtMostOnePerPair db →
      AtMostOnePerPair (runSchedSeq ops db) := by
  induction ops with
  | nil => intro db _ hinv; exact hinv
  | cons p rest ih =>
      intro db hids hinv
      obtain ⟨op, tm⟩ := p
      exact ih (runSchedOp op tm db)
        (by rw [runSchedOp_reservations]; exact hids)
        (runSchedOp_preserves_atMostOne op tm db hids hinv)

theorem c1_at_most_one_per_pair_witness :
    (dbSched.reservations.map Reservation.id).Nodup ∧
    pairCount (runSchedSeq [(SchedOp.preArrival, 10000), (SchedOp.preArrival, 10000),
        (SchedOp.midStay, 10000)] dbSched).calls 1 CallType.PRE_ARRIVAL ≤ 1 := by
  refine ⟨by decide, ?_⟩
  exact c1_at_most_one_per_pair [(SchedOp.preArrival, 10000), (SchedOp.preArrival, 10000),
      (SchedOp.midStay, 10000)] dbSched (by decide)
    (fun resId ct => by simp [dbSched, pairCount]) 1 CallType.PRE_ARRIVAL

end HotelDemo
